import Mathlib

/-!
Verification of the finflow-ghana-dollar backend core: the row-level
authorization policies, the derived-balance trigger
(update_savings_goal_amount) and the provisioning hook (handle_new_user)
from the SQL migration, together with the savings-goal form payload built
by the client page.  Monetary DECIMAL(15,2) values are represented exactly
as integers counting hundredths of a currency unit; user and row
identifiers (UUIDs in the schema) are represented as naturals.
-/

namespace FinFlow

/-- The role column of profiles: CHECK (role IN (admin, user)). -/
inductive Role
  | admin
  | user
deriving DecidableEq

/-- The currency_type enum: USD or GHS. -/
inductive Currency
  | USD
  | GHS
deriving DecidableEq

/-- The quarter_period enum: Q1..Q4. -/
inductive QuarterPeriod
  | Q1
  | Q2
  | Q3
  | Q4
deriving DecidableEq

/-- The transaction_type column of savings_transactions:
CHECK (transaction_type IN (deposit, withdrawal)). -/
inductive TransactionType
  | deposit
  | withdrawal
deriving DecidableEq

/-- The goal_type column of savings_goals:
CHECK (goal_type IN (vacation, car_service, tech_stocks, emergency, other)). -/
inductive GoalType
  | vacation
  | car_service
  | tech_stocks
  | emergency
  | other
deriving DecidableEq

/-- A row of auth.users as consumed by the provisioning hook: the trigger
reads NEW.id, NEW.email and NEW.raw_user_meta_data (which the admin panel
populates with full_name and role keys). -/
structure AuthUser where
  id : Nat
  email : String
  meta_full_name : Option String
  meta_role : Option String
deriving DecidableEq

/-- A row of public.profiles (user_id is UNIQUE, referencing auth.users). -/
structure Profile where
  user_id : Nat
  full_name : String
  role : Role
deriving DecidableEq

/-- A row of public.income_records. -/
structure IncomeRecord where
  id : Nat
  user_id : Nat
  quarter : QuarterPeriod
  year : Int
  amount : Int
  currency : Currency
deriving DecidableEq

/-- A row of public.expense_categories. -/
structure ExpenseCategory where
  id : Nat
  name : String
  description : Option String
deriving DecidableEq

/-- A row of public.expense_records. -/
structure ExpenseRecord where
  id : Nat
  user_id : Nat
  category_id : Nat
  quarter : QuarterPeriod
  year : Int
  amount : Int
  currency : Currency
deriving DecidableEq

/-- A row of public.savings_goals; current_amount has schema default 0. -/
structure SavingsGoal where
  id : Nat
  user_id : Nat
  name : String
  target_amount : Int
  current_amount : Int
  currency : Currency
  target_date : Option String
  goal_type : GoalType
  description : Option String
  is_active : Bool
deriving DecidableEq

/-- A row of public.savings_transactions: it references a savings goal and
carries no user_id column of its own. -/
structure SavingsTransaction where
  id : Nat
  savings_goal_id : Nat
  amount : Int
  transaction_type : TransactionType
deriving DecidableEq

/-- A row of public.currency_rates (rate stored in millionths). -/
structure CurrencyRate where
  id : Nat
  from_currency : Currency
  to_currency : Currency
  rate : Int
  date : Nat
deriving DecidableEq

/-- The database state: auth.users plus the seven public tables. -/
structure DB where
  auth_users : List AuthUser
  profiles : List Profile
  income_records : List IncomeRecord
  expense_categories : List ExpenseCategory
  expense_records : List ExpenseRecord
  savings_goals : List SavingsGoal
  savings_transactions : List SavingsTransaction
  currency_rates : List CurrencyRate
deriving DecidableEq

/-! ## Derived-balance maintainer: update_savings_goal_amount -/

/-- CASE WHEN transaction_type = deposit THEN amount ELSE -amount END; the
CHECK constraint makes withdrawal the only other case. -/
def signedAmount (t : SavingsTransaction) : Int :=
  match t.transaction_type with
  | TransactionType.deposit => t.amount
  | TransactionType.withdrawal => -t.amount

/-- UPDATE public.savings_goals SET current_amount = current_amount + d
WHERE id = gid. -/
def adjustGoal (gid : Nat) (d : Int) (goals : List SavingsGoal) : List SavingsGoal :=
  goals.map fun g =>
    if g.id = gid then { g with current_amount := g.current_amount + d } else g

/-- Insertion of a savings transaction together with the INSERT branch of the
AFTER INSERT trigger update_savings_goal_on_transaction, which runs in the
same unit of work: the referenced goal gains +amount for a deposit and
-amount for a withdrawal. -/
def insertSavingsTransaction (t : SavingsTransaction) (db : DB) : DB :=
  { db with
    savings_transactions := t :: db.savings_transactions,
    savings_goals := adjustGoal t.savings_goal_id (signedAmount t) db.savings_goals }

/-- DELETE FROM public.savings_transactions WHERE id = txnId, with the DELETE
branch of the trigger firing once per removed row: the referenced goal is set
to current_amount - (signed amount of the removed row), written here as
adding the negated signed amount. -/
def deleteSavingsTransaction (txnId : Nat) (db : DB) : DB :=
  { db with
    savings_transactions :=
      db.savings_transactions.filter fun t => !decide (t.id = txnId),
    savings_goals :=
      (db.savings_transactions.filter fun t => decide (t.id = txnId)).foldl
        (fun gs t => adjustGoal t.savings_goal_id (-signedAmount t) gs)
        db.savings_goals }

/-- A committed mutation of the savings_transactions table: an insertion of a
row or a deletion by row id. -/
inductive TxnOp
  | ins (t : SavingsTransaction)
  | del (txnId : Nat)

/-- Apply one transaction mutation (row change plus its trigger). -/
def applyTxnOp : TxnOp → DB → DB
  | TxnOp.ins t, db => insertSavingsTransaction t db
  | TxnOp.del i, db => deleteSavingsTransaction i db

/-- Apply a sequence of committed transaction mutations in order. -/
def applyTxnOps (ops : List TxnOp) (db : DB) : DB :=
  ops.foldl (fun db op => applyTxnOp op db) db

/-- Sum of the amounts of the deposit transactions currently referencing the
goal with id gid. -/
def depositSum (gid : Nat) (txns : List SavingsTransaction) : Int :=
  ((txns.filter fun t =>
      decide (t.savings_goal_id = gid ∧ t.transaction_type = TransactionType.deposit)).map
    (fun t => t.amount)).sum

/-- Sum of the amounts of the withdrawal transactions currently referencing
the goal with id gid. -/
def withdrawalSum (gid : Nat) (txns : List SavingsTransaction) : Int :=
  ((txns.filter fun t =>
      decide (t.savings_goal_id = gid ∧ t.transaction_type = TransactionType.withdrawal)).map
    (fun t => t.amount)).sum

/-- The central consistency invariant: every savings goal's current_amount
equals the sum of its deposit amounts minus the sum of its withdrawal
amounts. -/
def balanceInvariant (db : DB) : Prop :=
  ∀ g ∈ db.savings_goals,
    g.current_amount =
      depositSum g.id db.savings_transactions - withdrawalSum g.id db.savings_transactions

/-- Signed fold over a transaction list restricted to one goal. -/
def signedSum (gid : Nat) : List SavingsTransaction → Int
  | [] => 0
  | t :: ts => (if t.savings_goal_id = gid then signedAmount t else 0) + signedSum gid ts

lemma signedSum_eq_deposit_sub_withdrawal (gid : Nat) (txns : List SavingsTransaction) :
    signedSum gid txns = depositSum gid txns - withdrawalSum gid txns := by
  induction txns with
  | nil => simp [signedSum, depositSum, withdrawalSum]
  | cons t ts ih =>
    by_cases hg : t.savings_goal_id = gid
    · cases htt : t.transaction_type <;>
        simp [signedSum, depositSum, withdrawalSum, signedAmount, hg, htt,
          List.filter_cons] at ih ⊢ <;> omega
    · simp [signedSum, depositSum, withdrawalSum, hg, List.filter_cons] at ih ⊢
      omega

/-- The balance invariant, restated through the signed fold. -/
def balanceInvariantS (db : DB) : Prop :=
  ∀ g ∈ db.savings_goals, g.current_amount = signedSum g.id db.savings_transactions

lemma balanceInvariant_iff (db : DB) : balanceInvariant db ↔ balanceInvariantS db := by
  unfold balanceInvariant balanceInvariantS
  constructor <;> intro h g hg <;>
    rw [h g hg] <;> rw [signedSum_eq_deposit_sub_withdrawal]

lemma insert_preserves_balanceS (t : SavingsTransaction) (db : DB)
    (h : balanceInvariantS db) : balanceInvariantS (insertSavingsTransaction t db) := by
  intro g' hg'
  simp only [insertSavingsTransaction, adjustGoal, List.mem_map] at hg'
  obtain ⟨g, hg, rfl⟩ := hg'
  have hb := h g hg
  by_cases hid : g.id = t.savings_goal_id
  · simp only [insertSavingsTransaction, hid, if_pos rfl, signedSum]
    cases g
    simp_all [signedSum]
    omega
  · have hne : ¬ t.savings_goal_id = g.id := fun hc => hid hc.symm
    simp only [insertSavingsTransaction, if_neg hid, signedSum, if_neg hne]
    omega

lemma foldl_adjust_eq_map (L : List SavingsTransaction) (goals : List SavingsGoal) :
    L.foldl (fun gs t => adjustGoal t.savings_goal_id (-signedAmount t) gs) goals =
      goals.map fun g =>
        { g with current_amount := g.current_amount - signedSum g.id L } := by
  induction L generalizing goals with
  | nil =>
    have hfun : (fun g : SavingsGoal =>
        { g with current_amount := g.current_amount - signedSum g.id [] }) = id := by
      funext g
      cases g
      simp [signedSum]
    simp [hfun]
  | cons t L ih =>
    rw [List.foldl_cons, ih]
    unfold adjustGoal
    rw [List.map_map]
    apply congrArg (fun f => List.map f goals)
    funext g
    simp only [Function.comp_apply]
    by_cases hid : g.id = t.savings_goal_id
    · rw [if_pos hid]
      cases g
      simp_all [signedSum]
      omega
    · rw [if_neg hid]
      have hne : ¬ t.savings_goal_id = g.id := fun hc => hid hc.symm
      cases g
      simp_all [signedSum]

lemma signedSum_filter_split (gid i : Nat) (txns : List SavingsTransaction) :
    signedSum gid (txns.filter fun t => !decide (t.id = i)) =
      signedSum gid txns - signedSum gid (txns.filter fun t => decide (t.id = i)) := by
  induction txns with
  | nil => simp [signedSum]
  | cons t ts ih =>
    by_cases hti : t.id = i
    · simp [List.filter_cons, hti, signedSum, ih]
    · simp [List.filter_cons, hti, signedSum, ih]
      omega

lemma delete_preserves_balanceS (i : Nat) (db : DB)
    (h : balanceInvariantS db) : balanceInvariantS (deleteSavingsTransaction i db) := by
  intro g' hg'
  simp only [deleteSavingsTransaction, foldl_adjust_eq_map, List.mem_map] at hg'
  obtain ⟨g, hg, rfl⟩ := hg'
  have hb := h g hg
  simp only [deleteSavingsTransaction]
  show g.current_amount - _ = signedSum g.id _
  rw [signedSum_filter_split]
  omega

lemma txnOp_preserves_balanceS (op : TxnOp) (db : DB)
    (h : balanceInvariantS db) : balanceInvariantS (applyTxnOp op db) := by
  cases op with
  | ins t => exact insert_preserves_balanceS t db h
  | del i => exact delete_preserves_balanceS i db h

lemma txnOps_preserve_balanceS (ops : List TxnOp) (db : DB)
    (h : balanceInvariantS db) : balanceInvariantS (applyTxnOps ops db) := by
  induction ops generalizing db with
  | nil => exact h
  | cons op ops ih =>
    rw [applyTxnOps, List.foldl_cons]
    exact ih _ (txnOp_preserves_balanceS op db h)

lemma adjustGoal_adjustGoal (gid : Nat) (d e : Int) (goals : List SavingsGoal) :
    adjustGoal gid e (adjustGoal gid d goals) = adjustGoal gid (d + e) goals := by
  unfold adjustGoal
  rw [List.map_map]
  apply congrArg (fun f => List.map f goals)
  funext g
  by_cases hid : g.id = gid
  · cases g
    simp_all
    omega
  · cases g
    simp_all

lemma adjustGoal_zero (gid : Nat) (goals : List SavingsGoal) :
    adjustGoal gid 0 goals = goals := by
  unfold adjustGoal
  have hfun : (fun g : SavingsGoal =>
      if g.id = gid then { g with current_amount := g.current_amount + 0 } else g) = id := by
    funext g
    by_cases hid : g.id = gid
    · cases g
      simp_all
    · simp [hid]
  simp [hfun]

/-- C1: after every sequence of committed insertions and deletions of savings
transactions, each savings goal's current_amount equals the sum of its
deposit amounts minus the sum of its withdrawal amounts; and the insertion of
a transaction T, in the same unit of work, adds +T.amount to the referenced
goal when T is a deposit and -T.amount when T is a withdrawal. -/
theorem goal_balance_invariant_maintained (db : DB) (h : balanceInvariant db)
    (ops : List TxnOp) :
    balanceInvariant (applyTxnOps ops db) ∧
    ∀ t : SavingsTransaction,
      (insertSavingsTransaction t db).savings_transactions = t :: db.savings_transactions ∧
      (insertSavingsTransaction t db).savings_goals =
        db.savings_goals.map fun g =>
          if g.id = t.savings_goal_id then
            { g with current_amount := g.current_amount +
                (if t.transaction_type = TransactionType.deposit then t.amount
                 else -t.amount) }
          else g := by
  constructor
  · exact (balanceInvariant_iff _).mpr
      (txnOps_preserve_balanceS ops db ((balanceInvariant_iff db).mp h))
  · intro t
    refine ⟨rfl, ?_⟩
    show db.savings_goals.map _ = db.savings_goals.map _
    apply congrArg (fun f => List.map f db.savings_goals)
    funext g
    cases htt : t.transaction_type <;> simp [signedAmount, htt]

/-- A concrete savings goal used by the witnesses. -/
def goalW : SavingsGoal :=
  { id := 1, user_id := 5, name := "Vacation", target_amount := 500000,
    current_amount := 0, currency := Currency.USD, target_date := none,
    goal_type := GoalType.vacation, description := none, is_active := true }

/-- A concrete database holding one savings goal with balance 0. -/
def dbW : DB :=
  { auth_users := [], profiles := [], income_records := [], expense_categories := [],
    expense_records := [], savings_goals := [goalW], savings_transactions := [],
    currency_rates := [] }

/-- Deposit of 100.00 against goal 1. -/
def t1W : SavingsTransaction :=
  { id := 1, savings_goal_id := 1, amount := 10000,
    transaction_type := TransactionType.deposit }

/-- Withdrawal of 30.00 against goal 1. -/
def t2W : SavingsTransaction :=
  { id := 2, savings_goal_id := 1, amount := 3000,
    transaction_type := TransactionType.withdrawal }

/-- A concrete operation sequence: deposit 100.00 then withdraw 30.00. -/
def opsW : List TxnOp := [TxnOp.ins t1W, TxnOp.ins t2W]

/-- Witness for C1 at a concrete database and operation sequence. -/
theorem goal_balance_invariant_maintained_witness :
    balanceInvariant dbW ∧ balanceInvariant (applyTxnOps opsW dbW) :=
  ⟨by unfold balanceInvariant; decide,
   (goal_balance_invariant_maintained dbW (by unfold balanceInvariant; decide) opsW).1⟩

/-- C2: deleting a transaction reverses exactly the adjustment its insertion
applied, so inserting a (fresh-id) transaction and then deleting it restores
the whole database state, in particular the goal's current_amount. -/
theorem insert_then_delete_restores (db : DB) (t : SavingsTransaction)
    (hfresh : ∀ u ∈ db.savings_transactions, u.id ≠ t.id) :
    deleteSavingsTransaction t.id (insertSavingsTransaction t db) = db := by
  obtain ⟨au, pr, ir, ec, er, sg, st, cr⟩ := db
  have hfresh' : ∀ u ∈ st, u.id ≠ t.id := hfresh
  have hR : (t :: st).filter (fun u => decide (u.id = t.id)) = [t] := by
    rw [List.filter_cons, if_pos (by simp)]
    rw [List.filter_eq_nil_iff.mpr (fun u hu => by simp [hfresh' u hu])]
  have hT : (t :: st).filter (fun u => !decide (u.id = t.id)) = st := by
    rw [List.filter_cons, if_neg (by simp)]
    exact List.filter_eq_self.mpr (fun u hu => by simp [hfresh' u hu])
  show DB.mk au pr ir ec er
      (((t :: st).filter (fun u => decide (u.id = t.id))).foldl
        (fun gs u => adjustGoal u.savings_goal_id (-signedAmount u) gs)
        (adjustGoal t.savings_goal_id (signedAmount t) sg))
      ((t :: st).filter (fun u => !decide (u.id = t.id))) cr
    = DB.mk au pr ir ec er sg st cr
  rw [hR, hT, List.foldl_cons, List.foldl_nil, adjustGoal_adjustGoal]
  rw [show signedAmount t + -signedAmount t = 0 from by omega, adjustGoal_zero]

/-- The concrete database after the deposit of 100.00: goal balance 100.00. -/
def dbW2 : DB :=
  { dbW with
    savings_goals := [{ goalW with current_amount := 10000 }],
    savings_transactions := [t1W] }

/-- Witness for C2: starting from balance 100.00, inserting the withdrawal of
30.00 gives balance 70.00, and deleting it restores the state with balance
100.00. -/
theorem insert_then_delete_restores_witness :
    (∀ u ∈ dbW2.savings_transactions, u.id ≠ t2W.id) ∧
    (insertSavingsTransaction t2W dbW2).savings_goals.map
      (fun g => g.current_amount) = [7000] ∧
    deleteSavingsTransaction t2W.id (insertSavingsTransaction t2W dbW2) = dbW2 :=
  ⟨by decide, by decide, insert_then_delete_restores dbW2 t2W (by decide)⟩

/-! ## Authorization policy engine: the RLS policies of the migration -/

/-- A row-level operation. -/
inductive SqlOp
  | select
  | insert
  | update
  | delete
deriving DecidableEq

/-- EXISTS (SELECT 1 FROM public.profiles WHERE user_id = auth.uid() AND
role = admin), the admin test used by the admin policies. -/
def isAdmin (db : DB) (uid : Nat) : Bool :=
  db.profiles.any fun p => decide (p.user_id = uid ∧ p.role = Role.admin)

/-- RLS on public.profiles: per operation, the OR of the permissive policies
declared for it; an operation with no policy is denied.  The policies are:
users view their own profile, users update their own profile (USING only),
admins view all profiles, admins create profiles.  No DELETE policy exists. -/
def profilesAllowed (db : DB) (uid : Nat) (op : SqlOp) (row : Profile) : Bool :=
  match op with
  | SqlOp.select => decide (uid = row.user_id) || isAdmin db uid
  | SqlOp.insert => isAdmin db uid
  | SqlOp.update => decide (uid = row.user_id)
  | SqlOp.delete => false

/-- An UPDATE under RLS checks the USING clause on the stored row and the
WITH CHECK clause (defaulting to the USING expression) on the replacement
row. -/
def profilesUpdateAllowed (db : DB) (uid : Nat) (oldRow newRow : Profile) : Bool :=
  profilesAllowed db uid SqlOp.update oldRow && profilesAllowed db uid SqlOp.update newRow

/-- RLS on public.income_records: all four operations require
auth.uid() = user_id (USING for SELECT/UPDATE/DELETE, WITH CHECK for
INSERT). -/
def incomeRecordsAllowed (uid : Nat) (op : SqlOp) (row : IncomeRecord) : Bool :=
  match op with
  | SqlOp.select => decide (uid = row.user_id)
  | SqlOp.insert => decide (uid = row.user_id)
  | SqlOp.update => decide (uid = row.user_id)
  | SqlOp.delete => decide (uid = row.user_id)

/-- RLS on public.expense_records: all four operations require
auth.uid() = user_id. -/
def expenseRecordsAllowed (uid : Nat) (op : SqlOp) (row : ExpenseRecord) : Bool :=
  match op with
  | SqlOp.select => decide (uid = row.user_id)
  | SqlOp.insert => decide (uid = row.user_id)
  | SqlOp.update => decide (uid = row.user_id)
  | SqlOp.delete => decide (uid = row.user_id)

/-- RLS on public.savings_goals: all four operations require
auth.uid() = user_id. -/
def savingsGoalsAllowed (uid : Nat) (op : SqlOp) (row : SavingsGoal) : Bool :=
  match op with
  | SqlOp.select => decide (uid = row.user_id)
  | SqlOp.insert => decide (uid = row.user_id)
  | SqlOp.update => decide (uid = row.user_id)
  | SqlOp.delete => decide (uid = row.user_id)

/-- UPDATE on savings_goals: USING on the stored row, defaulted WITH CHECK on
the replacement row. -/
def savingsGoalsUpdateAllowed (uid : Nat) (oldRow newRow : SavingsGoal) : Bool :=
  savingsGoalsAllowed uid SqlOp.update oldRow && savingsGoalsAllowed uid SqlOp.update newRow

/-- RLS on public.expense_categories: everyone can view (SELECT USING true);
admins can manage (FOR ALL USING the admin test, whose WITH CHECK defaults to
the same expression). -/
def expenseCategoriesAllowed (db : DB) (uid : Nat) (op : SqlOp)
    (_row : ExpenseCategory) : Bool :=
  match op with
  | SqlOp.select => true || isAdmin db uid
  | SqlOp.insert => isAdmin db uid
  | SqlOp.update => isAdmin db uid
  | SqlOp.delete => isAdmin db uid

/-- RLS on public.currency_rates: everyone can view; admins can manage. -/
def currencyRatesAllowed (db : DB) (uid : Nat) (op : SqlOp)
    (_row : CurrencyRate) : Bool :=
  match op with
  | SqlOp.select => true || isAdmin db uid
  | SqlOp.insert => isAdmin db uid
  | SqlOp.update => isAdmin db uid
  | SqlOp.delete => isAdmin db uid

/-- EXISTS (SELECT 1 FROM public.savings_goals WHERE id = savings_goal_id AND
user_id = auth.uid()), the transitive ownership test. -/
def ownsReferencedGoal (db : DB) (uid : Nat) (gid : Nat) : Bool :=
  db.savings_goals.any fun g => decide (g.id = gid ∧ g.user_id = uid)

/-- RLS on public.savings_transactions: SELECT and INSERT require that the
referenced savings goal belongs to the caller; no UPDATE or DELETE policy is
declared, so those operations are denied for every caller. -/
def savingsTransactionsAllowed (db : DB) (uid : Nat) (op : SqlOp)
    (row : SavingsTransaction) : Bool :=
  match op with
  | SqlOp.select => ownsReferencedGoal db uid row.savings_goal_id
  | SqlOp.insert => ownsReferencedGoal db uid row.savings_goal_id
  | SqlOp.update => false
  | SqlOp.delete => false

/-- The rows a SELECT on income_records returns under RLS: the table filtered
by the SELECT predicate. -/
def visibleIncomeRecords (db : DB) (uid : Nat) : List IncomeRecord :=
  db.income_records.filter (incomeRecordsAllowed uid SqlOp.select)

/-- The rows a SELECT on expense_records returns under RLS. -/
def visibleExpenseRecords (db : DB) (uid : Nat) : List ExpenseRecord :=
  db.expense_records.filter (expenseRecordsAllowed uid SqlOp.select)

/-- The rows a SELECT on savings_goals returns under RLS. -/
def visibleSavingsGoals (db : DB) (uid : Nat) : List SavingsGoal :=
  db.savings_goals.filter (savingsGoalsAllowed uid SqlOp.select)

/-- The rows a SELECT on savings_transactions returns under RLS. -/
def visibleSavingsTransactions (db : DB) (uid : Nat) : List SavingsTransaction :=
  db.savings_transactions.filter (savingsTransactionsAllowed db uid SqlOp.select)

/-- A DELETE on savings_transactions issued by a caller through RLS: only
rows passing the DELETE predicate are removed (others count as zero rows
affected), and the balance trigger fires once per actually removed row. -/
def userDeleteSavingsTransactions (db : DB) (uid : Nat) (txnId : Nat) : DB :=
  { db with
    savings_transactions :=
      db.savings_transactions.filter fun t =>
        !(decide (t.id = txnId) && savingsTransactionsAllowed db uid SqlOp.delete t),
    savings_goals :=
      (db.savings_transactions.filter fun t =>
          decide (t.id = txnId) && savingsTransactionsAllowed db uid SqlOp.delete t).foldl
        (fun gs t => adjustGoal t.savings_goal_id (-signedAmount t) gs)
        db.savings_goals }

/-- C3: for users A and B with A and B distinct, the policies deny B SELECT,
UPDATE and DELETE on any income record, expense record or savings goal owned
by A (A's rows are absent from B's SELECT results, so the denial behaves as
row-not-found), and deny any INSERT by B whose owner field is not B. -/
theorem ownership_isolation (A B : Nat) (hAB : A ≠ B) :
    (∀ r : IncomeRecord, r.user_id = A →
      incomeRecordsAllowed B SqlOp.select r = false ∧
      incomeRecordsAllowed B SqlOp.update r = false ∧
      incomeRecordsAllowed B SqlOp.delete r = false) ∧
    (∀ r : ExpenseRecord, r.user_id = A →
      expenseRecordsAllowed B SqlOp.select r = false ∧
      expenseRecordsAllowed B SqlOp.update r = false ∧
      expenseRecordsAllowed B SqlOp.delete r = false) ∧
    (∀ r : SavingsGoal, r.user_id = A →
      savingsGoalsAllowed B SqlOp.select r = false ∧
      savingsGoalsAllowed B SqlOp.update r = false ∧
      savingsGoalsAllowed B SqlOp.delete r = false) ∧
    (∀ r : IncomeRecord, r.user_id ≠ B → incomeRecordsAllowed B SqlOp.insert r = false) ∧
    (∀ r : ExpenseRecord, r.user_id ≠ B → expenseRecordsAllowed B SqlOp.insert r = false) ∧
    (∀ r : SavingsGoal, r.user_id ≠ B → savingsGoalsAllowed B SqlOp.insert r = false) ∧
    (∀ db : DB, ∀ r : IncomeRecord, r.user_id = A → r ∉ visibleIncomeRecords db B) ∧
    (∀ db : DB, ∀ r : ExpenseRecord, r.user_id = A → r ∉ visibleExpenseRecords db B) ∧
    (∀ db : DB, ∀ r : SavingsGoal, r.user_id = A → r ∉ visibleSavingsGoals db B) := by
  have hBA : ¬ B = A := fun h => hAB h.symm
  refine ⟨?_, ?_, ?_, ?_, ?_, ?_, ?_, ?_, ?_⟩
  · intro r hr
    simp [incomeRecordsAllowed, hr, hBA]
  · intro r hr
    simp [expenseRecordsAllowed, hr, hBA]
  · intro r hr
    simp [savingsGoalsAllowed, hr, hBA]
  · intro r hr
    simp [incomeRecordsAllowed]
    exact fun h => hr h.symm
  · intro r hr
    simp [expenseRecordsAllowed]
    exact fun h => hr h.symm
  · intro r hr
    simp [savingsGoalsAllowed]
    exact fun h => hr h.symm
  · intro db r hr
    simp [visibleIncomeRecords, List.mem_filter, incomeRecordsAllowed, hr, hBA]
  · intro db r hr
    simp [visibleExpenseRecords, List.mem_filter, expenseRecordsAllowed, hr, hBA]
  · intro db r hr
    simp [visibleSavingsGoals, List.mem_filter, savingsGoalsAllowed, hr, hBA]

/-- A concrete income record owned by user 5. -/
def incW : IncomeRecord :=
  { id := 1, user_id := 5, quarter := QuarterPeriod.Q1, year := 2025,
    amount := 100000, currency := Currency.USD }

/-- Witness for C3 at users 5 and 2 and concrete rows. -/
theorem ownership_isolation_witness :
    incomeRecordsAllowed 2 SqlOp.select incW = false ∧
    savingsGoalsAllowed 2 SqlOp.delete goalW = false ∧
    incomeRecordsAllowed 2 SqlOp.insert incW = false ∧
    goalW ∉ visibleSavingsGoals dbW 2 :=
  ⟨((ownership_isolation 5 2 (by decide)).1 incW rfl).1,
   ((ownership_isolation 5 2 (by decide)).2.2.1 goalW rfl).2.2,
   (ownership_isolation 5 2 (by decide)).2.2.2.1 incW (by decide),
   (ownership_isolation 5 2 (by decide)).2.2.2.2.2.2.2.2 dbW goalW rfl⟩

/-- C4: a savings transaction T referencing goal G (G being the goal with
that id) is selectable and insertable exactly under the authorization context
of G's owner, the ownership being established by lookup of G; any other user
cannot see or insert T. -/
theorem txn_ownership_transitive (db : DB) (T : SavingsTransaction) (G : SavingsGoal)
    (hG : G ∈ db.savings_goals) (hid : G.id = T.savings_goal_id)
    (huniq : ∀ g ∈ db.savings_goals, g.id = T.savings_goal_id → g.user_id = G.user_id) :
    ∀ uid : Nat,
      (savingsTransactionsAllowed db uid SqlOp.select T = true ↔ uid = G.user_id) ∧
      (savingsTransactionsAllowed db uid SqlOp.insert T = true ↔ uid = G.user_id) ∧
      (uid ≠ G.user_id → T ∉ visibleSavingsTransactions db uid) := by
  intro uid
  have hmain : savingsTransactionsAllowed db uid SqlOp.select T = true ↔ uid = G.user_id := by
    simp only [savingsTransactionsAllowed, ownsReferencedGoal, List.any_eq_true,
      decide_eq_true_eq]
    constructor
    · rintro ⟨g, hg, hgid, hguid⟩
      have hgu := huniq g hg hgid
      omega
    · rintro rfl
      exact ⟨G, hG, hid, rfl⟩
  refine ⟨hmain, hmain, ?_⟩
  intro hne hmem
  exact hne (hmain.mp (List.mem_filter.mp hmem).2)

/-- Witness for C4 at a concrete database, goal and transaction. -/
theorem txn_ownership_transitive_witness :
    (savingsTransactionsAllowed dbW 5 SqlOp.select t1W = true ↔ (5 : Nat) = goalW.user_id) ∧
    (savingsTransactionsAllowed dbW 2 SqlOp.insert t1W = true ↔ (2 : Nat) = goalW.user_id) :=
  ⟨(txn_ownership_transitive dbW t1W goalW (by decide) (by decide) (by decide) 5).1,
   (txn_ownership_transitive dbW t1W goalW (by decide) (by decide) (by decide) 2).2.1⟩

/-- C7: no caller is granted UPDATE or DELETE on savings_transactions, so a
user-issued DELETE affects zero rows, leaves the database unchanged and never
fires the DELETE branch of the balance maintainer. -/
theorem no_txn_update_delete (db : DB) (uid : Nat) (T : SavingsTransaction) (i : Nat) :
    savingsTransactionsAllowed db uid SqlOp.update T = false ∧
    savingsTransactionsAllowed db uid SqlOp.delete T = false ∧
    userDeleteSavingsTransactions db uid i = db := by
  refine ⟨rfl, rfl, ?_⟩
  unfold userDeleteSavingsTransactions
  have hkeep : (db.savings_transactions.filter fun t =>
      !(decide (t.id = i) && savingsTransactionsAllowed db uid SqlOp.delete t)) =
      db.savings_transactions := by
    apply List.filter_eq_self.mpr
    intro t ht
    simp [savingsTransactionsAllowed]
  have hnone : (db.savings_transactions.filter fun t =>
      decide (t.id = i) && savingsTransactionsAllowed db uid SqlOp.delete t) = [] := by
    apply List.filter_eq_nil_iff.mpr
    intro t ht
    simp [savingsTransactionsAllowed]
  rw [hkeep, hnone, List.foldl_nil]

/-- C8: SELECT on expense_categories and currency_rates is unconditional;
their INSERT/UPDATE/DELETE coincide with the admin test, so a caller whose
profiles all carry role user is denied them; and an admin may SELECT any
profile row. -/
theorem reference_table_admin_rights (db : DB) (uid : Nat) :
    (∀ r : ExpenseCategory, expenseCategoriesAllowed db uid SqlOp.select r = true) ∧
    (∀ r : CurrencyRate, currencyRatesAllowed db uid SqlOp.select r = true) ∧
    (∀ r : ExpenseCategory, ∀ op : SqlOp, op ≠ SqlOp.select →
      expenseCategoriesAllowed db uid op r = isAdmin db uid) ∧
    (∀ r : CurrencyRate, ∀ op : SqlOp, op ≠ SqlOp.select →
      currencyRatesAllowed db uid op r = isAdmin db uid) ∧
    ((∀ p ∈ db.profiles, p.user_id = uid → p.role = Role.user) → isAdmin db uid = false) ∧
    (isAdmin db uid = true → ∀ p : Profile, profilesAllowed db uid SqlOp.select p = true) := by
  refine ⟨?_, ?_, ?_, ?_, ?_, ?_⟩
  · intro r
    simp [expenseCategoriesAllowed]
  · intro r
    simp [currencyRatesAllowed]
  · intro r op hop
    cases op with
    | select => exact absurd rfl hop
    | insert => rfl
    | update => rfl
    | delete => rfl
  · intro r op hop
    cases op with
    | select => exact absurd rfl hop
    | insert => rfl
    | update => rfl
    | delete => rfl
  · intro h
    cases hA : isAdmin db uid with
    | false => rfl
    | true =>
      exfalso
      simp only [isAdmin, List.any_eq_true, decide_eq_true_eq] at hA
      obtain ⟨p, hp, hpu, hpr⟩ := hA
      have := h p hp hpu
      rw [this] at hpr
      exact absurd hpr (by simp)
  · intro hA p
    simp [profilesAllowed, hA]

/-- A profile with the admin role for user 1. -/
def adminP : Profile := { user_id := 1, full_name := "Root", role := Role.admin }

/-- A profile with the user role for user 2. -/
def userP : Profile := { user_id := 2, full_name := "Bob", role := Role.user }

/-- A database whose profiles table holds one admin and one ordinary user. -/
def dbA : DB := { dbW with profiles := [adminP, userP] }

/-- A concrete expense category row. -/
def catW : ExpenseCategory := { id := 1, name := "Housing", description := none }

/-- Witness for C8: in dbA, user 2 (role user) is denied category mutation
while admin 1 may read user 2's profile. -/
theorem reference_table_admin_rights_witness :
    isAdmin dbA 2 = false ∧
    expenseCategoriesAllowed dbA 2 SqlOp.insert catW = isAdmin dbA 2 ∧
    profilesAllowed dbA 1 SqlOp.select userP = true :=
  ⟨(reference_table_admin_rights dbA 2).2.2.2.2.1 (by decide),
   (reference_table_admin_rights dbA 2).2.2.1 catW SqlOp.insert (by decide),
   (reference_table_admin_rights dbA 1).2.2.2.2.2 (by decide) userP⟩

/-- C9 counterexample: caller 1 is an admin, yet the update policy denies
caller 1 an update of user 2's profile, and owner 2 is permitted an update
that changes the role field rather than only the name — both against the
claim. -/
theorem profile_update_rights_counterexample :
    isAdmin dbA 1 = true ∧
    profilesAllowed dbA 1 SqlOp.update userP = false ∧
    userP.user_id ≠ 1 ∧
    profilesUpdateAllowed dbA 2 userP { userP with role := Role.admin } = true ∧
    userP.role ≠ Role.admin := by decide

/-- C9 amended: a profile UPDATE is permitted exactly when the caller owns
both the stored and the replacement row, with no restriction on which fields
change and no additional admin right. -/
theorem profile_update_owner_only (db : DB) (uid : Nat) (oldRow newRow : Profile) :
    profilesUpdateAllowed db uid oldRow newRow = true ↔
      uid = oldRow.user_id ∧ uid = newRow.user_id := by
  simp [profilesUpdateAllowed, profilesAllowed]

/-! ## Provisioning hook: handle_new_user -/

/-- public.handle_new_user: builds the profile row for a new auth.users row;
full_name is COALESCE of the metadata full_name and the email, and the role
is admin exactly for the email admin@fms.com. The metadata role key (which
the admin panel supplies) is not read. -/
def handle_new_user (u : AuthUser) : Profile :=
  { user_id := u.id,
    full_name := u.meta_full_name.getD u.email,
    role := if u.email = "admin@fms.com" then Role.admin else Role.user }

/-- Creation of a new identity: the INSERT into auth.users and the trigger's
INSERT into profiles form one atomic unit; the primary key on auth.users and
the UNIQUE constraint on profiles.user_id make the whole unit fail (none),
leaving the database unchanged, when a duplicate exists. -/
def signUp (db : DB) (u : AuthUser) : Option DB :=
  if db.auth_users.any (fun v => decide (v.id = u.id)) then none
  else if db.profiles.any (fun p => decide (p.user_id = u.id)) then none
  else some { db with
    auth_users := u :: db.auth_users,
    profiles := handle_new_user u :: db.profiles }

/-- C5: a successful identity creation yields exactly one profile for that
identity, with role admin iff the email is admin@fms.com and full name
defaulting to the metadata name with the email as fallback; repeating the
creation event for the same identity fails and produces no second profile. -/
theorem provisioning_exactly_one_profile (db : DB) (u : AuthUser) (db' : DB)
    (h : signUp db u = some db') :
    db'.profiles.filter (fun p => decide (p.user_id = u.id)) = [handle_new_user u] ∧
    ((handle_new_user u).role = Role.admin ↔ u.email = "admin@fms.com") ∧
    (handle_new_user u).full_name = u.meta_full_name.getD u.email ∧
    ∀ v : AuthUser, v.id = u.id → signUp db' v = none := by
  unfold signUp at h
  by_cases h1 : db.auth_users.any (fun v => decide (v.id = u.id)) = true
  · rw [if_pos h1] at h
    exact absurd h (by simp)
  · rw [if_neg h1] at h
    by_cases h2 : db.profiles.any (fun p => decide (p.user_id = u.id)) = true
    · rw [if_pos h2] at h
      exact absurd h (by simp)
    · rw [if_neg h2] at h
      injection h with h3
      subst h3
      refine ⟨?_, ?_, rfl, ?_⟩
      · rw [List.filter_cons, if_pos (by simp [handle_new_user])]
        simp only [List.any_eq_true, decide_eq_true_eq, not_exists] at h2
        rw [List.filter_eq_nil_iff.mpr (fun p hp => by
          simp only [decide_eq_true_eq]
          exact fun hc => h2 p ⟨hp, hc⟩)]
      · unfold handle_new_user
        by_cases he : u.email = "admin@fms.com"
        · simp [he]
        · simp [he]
      · intro v hv
        unfold signUp
        rw [if_pos (by simp [hv])]

/-- The new admin identity used by the provisioning witness. -/
def uAdminW : AuthUser :=
  { id := 1, email := "admin@fms.com", meta_full_name := some "Root",
    meta_role := none }

/-- The database state after provisioning uAdminW from the empty tables. -/
def dbP1 : DB :=
  { dbW with auth_users := [uAdminW], profiles := [handle_new_user uAdminW] }

/-- Witness for C5: provisioning admin@fms.com yields one admin profile and
cannot be repeated. -/
theorem provisioning_exactly_one_profile_witness :
    dbP1.profiles.filter (fun p => decide (p.user_id = uAdminW.id)) =
      [handle_new_user uAdminW] ∧
    (handle_new_user uAdminW).role = Role.admin ∧
    signUp dbP1 uAdminW = none :=
  ⟨(provisioning_exactly_one_profile dbW uAdminW dbP1 (by decide)).1,
   ((provisioning_exactly_one_profile dbW uAdminW dbP1 (by decide)).2.1).mpr rfl,
   (provisioning_exactly_one_profile dbW uAdminW dbP1 (by decide)).2.2.2 uAdminW rfl⟩

/-- C10: two identity creations that differ only in the metadata role value
provision identical profiles; the assigned role depends only on whether the
email is admin@fms.com. -/
theorem metadata_role_ignored (u v : AuthUser) (hid : u.id = v.id)
    (he : u.email = v.email) (hn : u.meta_full_name = v.meta_full_name) :
    handle_new_user u = handle_new_user v ∧
    ((handle_new_user u).role = Role.admin ↔ u.email = "admin@fms.com") := by
  constructor
  · unfold handle_new_user
    rw [hid, he, hn]
  · unfold handle_new_user
    by_cases hadm : u.email = "admin@fms.com" <;> simp [hadm]

/-- A signup whose metadata claims the admin role. -/
def uRoleAdminW : AuthUser :=
  { id := 7, email := "bob@fms.com", meta_full_name := some "Bob",
    meta_role := some "admin" }

/-- The same signup with metadata role user. -/
def uRoleUserW : AuthUser :=
  { id := 7, email := "bob@fms.com", meta_full_name := some "Bob",
    meta_role := some "user" }

/-- Witness for C10: requesting role admin in the metadata changes nothing,
and the provisioned role is user. -/
theorem metadata_role_ignored_witness :
    handle_new_user uRoleAdminW = handle_new_user uRoleUserW ∧
    (handle_new_user uRoleAdminW).role = Role.user :=
  ⟨(metadata_role_ignored uRoleAdminW uRoleUserW rfl rfl rfl).1, by decide⟩

/-! ## The savings-goal form payload (client page) -/

/-- The goalData object built by handleGoalSubmit on the savings page: keys
user_id, name, target_amount, currency, target_date, goal_type and
description — and no current_amount key. -/
structure GoalPayload where
  user_id : Nat
  name : String
  target_amount : Int
  currency : Currency
  target_date : Option String
  goal_type : GoalType
  description : Option String
deriving DecidableEq

/-- UPDATE savings_goals SET (payload columns) applied to one stored row:
columns absent from the payload keep their stored values. -/
def applyGoalPayload (p : GoalPayload) (g : SavingsGoal) : SavingsGoal :=
  { g with
    user_id := p.user_id, name := p.name, target_amount := p.target_amount,
    currency := p.currency, target_date := p.target_date, goal_type := p.goal_type,
    description := p.description }

/-- The editing branch of handleGoalSubmit: UPDATE ... WHERE id = goalId. -/
def updateGoalViaForm (p : GoalPayload) (goalId : Nat)
    (goals : List SavingsGoal) : List SavingsGoal :=
  goals.map fun g => if g.id = goalId then applyGoalPayload p g else g

/-- The creation branch of handleGoalSubmit: INSERT of the payload;
current_amount takes its schema default 0 and is_active its default true. -/
def insertGoalViaForm (p : GoalPayload) (newId : Nat) : SavingsGoal :=
  { id := newId, user_id := p.user_id, name := p.name,
    target_amount := p.target_amount, current_amount := 0, currency := p.currency,
    target_date := p.target_date, goal_type := p.goal_type,
    description := p.description, is_active := true }

/-- C6 counterexample: a direct external write of current_amount is not
disallowed — the update policy on savings_goals lets owner 5 replace goal 1
(balance 0) by the same row with balance 9999.00, since the policy checks
ownership only, never columns. -/
theorem direct_current_amount_write_not_disallowed :
    savingsGoalsUpdateAllowed 5 goalW { goalW with current_amount := 999900 } = true ∧
    goalW.current_amount ≠ 999900 := by decide

/-- C6 amended: the normal client flow never writes current_amount — the goal
form's update payload leaves every stored balance unchanged and its insert
takes the schema default 0 — though the direct update path is constrained
only by ownership, not by column. -/
theorem goal_form_preserves_current_amount (p : GoalPayload) (g : SavingsGoal)
    (gid newId : Nat) (goals : List SavingsGoal) :
    (applyGoalPayload p g).current_amount = g.current_amount ∧
    (insertGoalViaForm p newId).current_amount = 0 ∧
    (updateGoalViaForm p gid goals).map (fun x => x.current_amount) =
      goals.map (fun x => x.current_amount) := by
  refine ⟨rfl, rfl, ?_⟩
  unfold updateGoalViaForm
  rw [List.map_map]
  apply congrArg (fun f => List.map f goals)
  funext x
  by_cases hid : x.id = gid <;> simp [hid, applyGoalPayload]

end FinFlow
